import Mathlib

/-!
Verification of the streaming inference session of the `gh-models` CLI
(`cmd/run/run.go` and the Azure completion-stream client).

The Go code is shallowly embedded: structs become structures, pointer-typed
optional fields become `Option`, `float64` values are represented as exact
rationals, and the REPL loop becomes a recursive function over the list of
input lines.  Go passes struct arguments by value; where the source hands a
`Conversation`, `ModelParameters` or `strings.Builder` to a helper by value,
the embedding makes the copy explicit: the helper returns its local copy and
the caller discards it, exactly as the Go caller does.
-/

/-- Role of a chat message (`azuremodels.ChatMessageRole`).
Modelled from the spec: the role enum `system | user | assistant` (§3);
the Go declaration is not among the provided sources. -/
inductive ChatMessageRole where
  | system
  | user
  | assistant
deriving DecidableEq

/-- A chat message (`azuremodels.ChatMessage`).
Modelled from the spec: `Message = \x7brole, content\x7d` (§3); the Go struct
(with `Content *string`) is not among the provided sources, its fields are
those used by `run.go`. -/
structure ChatMessage where
  content : Option String
  role : ChatMessageRole
deriving DecidableEq

/-- An outbound chat-completion request (`azuremodels.ChatCompletionOptions`).
Modelled from the spec: the request schema (§6)
`\x7bmodel, messages, stream, max_tokens?, temperature?, top_p?\x7d`; the Go
struct is not among the provided sources, its fields are those used by
`run.go` and the client.  `float64` fields are represented as rationals. -/
structure ChatCompletionOptions where
  messages : List ChatMessage
  model : String
  maxTokens : Option Int
  temperature : Option Rat
  topP : Option Rat
  stream : Bool
deriving DecidableEq

/-- The fragment carried by one streamed choice
(`azuremodels.ChatChoiceMessage`-like, with `Content *string`).
Modelled from the spec: the payload shape
`\x7bchoices: [\x7bdelta?: \x7bcontent?\x7d, message?: \x7bcontent?\x7d\x7d]\x7d` (§6). -/
structure ChatChoiceMessage where
  content : Option String
deriving DecidableEq

/-- One choice of a completion chunk (`azuremodels.ChatChoice`): either the
incremental `delta` or a full `message` may be populated.
Modelled from the spec: CompletionChunk (§3). -/
structure ChatChoice where
  delta : Option ChatChoiceMessage
  message : Option ChatChoiceMessage
deriving DecidableEq

/-- One deserialized completion chunk (`azuremodels.ChatCompletion`).
Modelled from the spec: CompletionChunk (§3). -/
structure ChatCompletion where
  choices : List ChatChoice
deriving DecidableEq

/-- `ModelParameters` from `cmd/run/run.go`: three independently optional
generation parameters.  Go `*int` becomes `Option Int`, Go `*float64`
becomes `Option Rat`. -/
structure ModelParameters where
  maxTokens : Option Int
  temperature : Option Rat
  topP : Option Rat
deriving DecidableEq

/-- Boolean string-prefix test via the underlying character lists; models Go
`strings.HasPrefix`.  (The core `String` functions hide behind byte-position
arithmetic that the kernel cannot evaluate, so the embedding works on the
character lists throughout.) -/
def strStarts (s p : String) : Bool :=
  p.data.isPrefixOf s.data

/-- Whether `sub` occurs contiguously inside `l`. -/
def listContainsSub (l sub : List Char) : Bool :=
  (List.range (l.length + 1)).any (fun i => decide ((l.drop i).take sub.length = sub))

/-- Whether `sub` occurs contiguously inside `s`; models Go
`strings.Contains`. -/
def strContains (s sub : String) : Bool :=
  listContainsSub s.data sub.data

/-- The white-space class of Go `strings.TrimSpace` (ASCII part; the Unicode
white-space code points never occur in the inputs considered here). -/
def goIsSpace (c : Char) : Bool :=
  c = ' ' ∨ c = '\t' ∨ c = '\n' ∨ c = '\x0b' ∨ c = '\x0c' ∨ c = '\r'

/-- Models Go `strings.TrimSpace`: removes leading and trailing white
space. -/
def goTrimSpace (s : String) : String :=
  String.mk (((s.data.dropWhile goIsSpace).reverse.dropWhile goIsSpace).reverse)

/-- Splits a character list at every occurrence of `sep` (helper for the
`strings.Split` model). -/
def splitChar (l : List Char) (sep : Char) : List (List Char) :=
  match l with
  | [] => [[]]
  | c :: rest =>
    match splitChar rest sep with
    | [] => [[]]
    | h :: t => if c = sep then [] :: h :: t else (c :: h) :: t

/-- Models Go `strings.Split` for a one-character separator (the only form
the source uses: `strings.Split(prompt, " ")`). -/
def goSplit (s : String) (sep : Char) : List String :=
  (splitChar s.data sep).map String.mk

/-- Models Go `strings.Join`: the elements concatenated with the separator
between consecutive ones. -/
def goJoin (elems : List String) (sep : String) : String :=
  match elems with
  | [] => ""
  | [x] => x
  | x :: rest => x ++ sep ++ goJoin rest sep

/-- Digit list to number, most significant first (helper for the strconv
models). -/
def digitsToNat (l : List Char) : Nat :=
  l.foldl (fun a c => a * 10 + (c.toNat - 48)) 0

/-- Models Go `strconv.Quote` for strings that contain no characters needing
an escape (the only inputs the development evaluates it on): wraps the
string in double quotes. -/
def goQuote (s : String) : String :=
  "\"" ++ s ++ "\""

/-- Models Go `strconv.Atoi` (= `ParseInt(s, 10, 64)`): optional sign, then
decimal digits; empty or non-digit input is a syntax error, a value outside
the `int64` range is a range error.  Error strings follow
`strconv.NumError.Error()`. -/
def goAtoi (s : String) : Except String Int :=
  let synErr : Except String Int :=
    Except.error ("strconv.Atoi: parsing " ++ goQuote s ++ ": invalid syntax")
  let rangeErr : Except String Int :=
    Except.error ("strconv.Atoi: parsing " ++ goQuote s ++ ": value out of range")
  let signAndDigits :=
    match s.data with
    | '+' :: r => (false, r)
    | '-' :: r => (true, r)
    | r => (false, r)
  let neg := signAndDigits.1
  let ds := signAndDigits.2
  if ds.isEmpty then synErr
  else if ds.all Char.isDigit then
    let v : Int := if neg then -(digitsToNat ds : Int) else (digitsToNat ds : Int)
    if v < -(2 ^ 63) ∨ 2 ^ 63 - 1 < v then rangeErr else Except.ok v
  else synErr

/-- Models Go `strconv.ParseFloat(s, 64)` restricted to plain decimal
literals (optional sign, digits, optional fractional part; no exponent, no
inf/NaN, no hex): the parsed value is kept as an exact rational.  Error
strings follow `strconv.NumError.Error()`. -/
def goParseFloat (s : String) : Except String Rat :=
  let invalid : Except String Rat :=
    Except.error ("strconv.ParseFloat: parsing " ++ goQuote s ++ ": invalid syntax")
  let signAndBody :=
    match s.data with
    | '+' :: r => (false, r)
    | '-' :: r => (true, r)
    | r => (false, r)
  let neg := signAndBody.1
  let body := signAndBody.2
  if body.count '.' > 1 then invalid
  else
    let ip := body.takeWhile (fun c => c ≠ '.')
    let fp := (body.dropWhile (fun c => c ≠ '.')).drop 1
    if (ip ++ fp).isEmpty then invalid
    else if (ip ++ fp).all Char.isDigit then
      let mantissa : Nat := digitsToNat ip * 10 ^ fp.length + digitsToNat fp
      Except.ok (mkRat (if neg then -(mantissa : Int) else (mantissa : Int)) (10 ^ fp.length))
    else invalid

/-- Left-pads a decimal string with zeros to the given width (helper for the
`%f` model). -/
def zeroPad (s : String) (w : Nat) : String :=
  String.mk (List.replicate (w - s.length) '0') ++ s

/-- Models Go `fmt.Sprintf("%f", v)`: sign, integer part, then exactly six
fractional digits (ties rounded up; the exact tie behaviour of float64 is
immaterial here). -/
def goSprintfFloat (q : Rat) : String :=
  let sign := if q < 0 then "-" else ""
  let n : Rat := if q < 0 then -q else q
  let scaled : Nat := (n * 1000000 + 1 / 2).floor.toNat
  sign ++ toString (scaled / 1000000) ++ "." ++ zeroPad (toString (scaled % 1000000)) 6

/-- The error text of `SetParameterByName` for an unrecognized name
(`cmd/run/run.go`, `default` arm of the switch). -/
def unknownParamMsg (name : String) : String :=
  "unknown parameter \x27" ++ name ++ "\x27. Supported parameters: max-tokens, temperature, top-p"

/-- `ModelParameters.SetParameterByName` from `cmd/run/run.go`: parses the
textual value with `strconv.Atoi` / `strconv.ParseFloat` and stores it; the
Go method mutates its receiver and returns `error`, embedded here as
`Except` returning the updated copy. -/
def ModelParameters.SetParameterByName (mp : ModelParameters) (name value : String) :
    Except String ModelParameters :=
  if name = "max-tokens" then
    match goAtoi value with
    | Except.error e => Except.error e
    | Except.ok maxTokens => Except.ok { mp with maxTokens := some maxTokens }
  else if name = "temperature" then
    match goParseFloat value with
    | Except.error e => Except.error e
    | Except.ok temperature => Except.ok { mp with temperature := some temperature }
  else if name = "top-p" then
    match goParseFloat value with
    | Except.error e => Except.error e
    | Except.ok topP => Except.ok { mp with topP := some topP }
  else Except.error (unknownParamMsg name)

/-- `ModelParameters.FormatParameter` from `cmd/run/run.go`: each recognized
name renders its value when set (`strconv.Itoa` / `fmt.Sprintf("%f")`);
every other path falls through to the sentinel. -/
def ModelParameters.FormatParameter (mp : ModelParameters) (name : String) : String :=
  if name = "max-tokens" then
    match mp.maxTokens with
    | some v => toString v
    | none => "<not set>"
  else if name = "temperature" then
    match mp.temperature with
    | some v => goSprintfFloat v
    | none => "<not set>"
  else if name = "top-p" then
    match mp.topP with
    | some v => goSprintfFloat v
    | none => "<not set>"
  else "<not set>"

/-- `ModelParameters.UpdateRequest` from `cmd/run/run.go`: plain assignment
of all three parameter fields onto the request, set or not. -/
def ModelParameters.UpdateRequest (mp : ModelParameters) (req : ChatCompletionOptions) :
    ChatCompletionOptions :=
  { req with maxTokens := mp.maxTokens, temperature := mp.temperature, topP := mp.topP }

/-- `Conversation` from `cmd/run/run.go`: ordered message history plus an
optional system directive. -/
structure Conversation where
  messages : List ChatMessage
  systemPrompt : String
deriving DecidableEq

/-- `Conversation.AddMessage` from `cmd/run/run.go`: appends a message with
the given role and content. -/
def Conversation.AddMessage (c : Conversation) (role : ChatMessageRole) (content : String) :
    Conversation :=
  { c with messages := c.messages ++ [{ content := some content, role := role }] }

/-- `Conversation.GetMessages` from `cmd/run/run.go`: materializes the
request view; when the system prompt is non-empty a synthetic `system`
message is placed first (the Go code builds a fresh array of length
`len(messages)+1` and copies the stored turns after it). -/
def Conversation.GetMessages (c : Conversation) : List ChatMessage :=
  if c.systemPrompt ≠ "" then
    { content := some c.systemPrompt, role := ChatMessageRole.system } :: c.messages
  else c.messages

/-- `Conversation.Reset` from `cmd/run/run.go`: drops the stored turns
(`c.messages = nil`); the system prompt is untouched. -/
def Conversation.Reset (c : Conversation) : Conversation :=
  { c with messages := [] }

/-- An HTTP response as the client observes it: numeric status code, the Go
`http.Response.Status` line (e.g. "404 Not Found"), and the body. -/
structure HTTPResponse where
  statusCode : Nat
  status : String
  body : String
deriving DecidableEq

/-- The SSE reader handle returned on success
(`sse.NewEventReader[ChatCompletion](resp.Body)`).
Modelled from the spec: the Event Stream Reader (§4.1) specialized to
completion chunks, represented by the byte source it wraps; the `sse`
package is not among the provided sources and no claim examines its
internals. -/
structure EventReader where
  source : String
deriving DecidableEq

/-- `azure_models.ChatCompletionResponse`: wraps the reader. -/
structure ChatCompletionResponse where
  reader : EventReader
deriving DecidableEq

/-- `Client.handleHTTPError` from the Azure client: a message selected by
status code (`http.StatusUnauthorized` = 401, `http.StatusBadRequest` =
400), with the response body appended when non-empty. -/
def handleHTTPError (resp : HTTPResponse) : String :=
  let sb :=
    if resp.statusCode = 401 then "unauthorized"
    else if resp.statusCode = 400 then "bad request"
    else "unexpected response from the server: " ++ resp.status
  if resp.body.length > 0 then sb ++ "\n" ++ resp.body ++ "\n" else sb

deriving instance DecidableEq for Except

/-- Everything observable about one `Client.GetChatCompletionStream` call:
the request actually issued (after the client forces `Stream = true`), the
returned value, and whether the response body was closed before
returning (the deferred `resp.Body.Close()` on the error path). -/
structure StreamCallResult where
  sentRequest : ChatCompletionOptions
  outcome : Except String ChatCompletionResponse
  bodyClosed : Bool
deriving DecidableEq

/-- `Client.GetChatCompletionStream` from the Azure client: sets
`req.Stream = true`, issues the request, and on a non-200 status closes the
body and returns `handleHTTPError`; on 200 it hands the body to the SSE
reader.  The transport is abstracted as the `HTTPResponse` the server
answers with. -/
def GetChatCompletionStream (req : ChatCompletionOptions) (resp : HTTPResponse) :
    StreamCallResult :=
  let req2 := { req with stream := true }
  if resp.statusCode ≠ 200 then
    { sentRequest := req2
      outcome := Except.error (handleHTTPError resp)
      bodyClosed := true }
  else
    { sentRequest := req2
      outcome := Except.ok { reader := { source := resp.body } }
      bodyClosed := false }

/-- Models `strings.TrimPrefix`: drops the given leading string when
present. -/
def goTrimLeading (s p : String) : String :=
  if strStarts s p then String.mk (s.data.drop p.data.length) else s

/-- Models `strings.Trim(s, "\"")`: removes every leading and trailing
double-quote character. -/
def goTrimQuotes (s : String) : String :=
  String.mk (((s.data.dropWhile (fun c => c = '\"')).reverse.dropWhile (fun c => c = '\"')).reverse)

/-- `handleParametersPrompt` from `cmd/run/run.go`: the read-only display of
the parameters and the system prompt (its output lines). -/
def handleParametersPrompt (conversation : Conversation) (mp : ModelParameters) :
    List String :=
  ["Current parameters:\n"] ++
    (["max-tokens", "temperature", "top-p"].map
      (fun name => "  " ++ name ++ ": " ++ mp.FormatParameter name ++ "\n")) ++
    ["\n", "System Prompt:\n"] ++
    (if conversation.systemPrompt ≠ "" then ["  " ++ conversation.systemPrompt ++ "\n"]
     else ["  <not set>\n"])

/-- `handleResetPrompt` from `cmd/run/run.go`.  The Go function receives the
`Conversation` struct BY VALUE: `conversation.Reset()` clears the local
copy.  The embedding returns that local copy together with the output; the
caller (the session loop) discards the copy, as the Go caller implicitly
does. -/
def handleResetPrompt (conversation : Conversation) : Conversation × List String :=
  (conversation.Reset, ["Reset chat history\n"])

/-- `handleSetPrompt` from `cmd/run/run.go`.  Receives `ModelParameters` BY
VALUE; returns the local copy (updated on success) and the output, and the
caller discards the copy. -/
def handleSetPrompt (prompt : String) (mp : ModelParameters) :
    ModelParameters × List String :=
  match goSplit prompt ' ' with
  | [_, name, value] =>
    match mp.SetParameterByName name value with
    | Except.error e => (mp, [e ++ "\n"])
    | Except.ok mp2 => (mp2, ["Set " ++ name ++ " to " ++ value ++ "\n"])
  | _ => (mp, ["Invalid /set syntax. Usage: /set <name> <value>\n"])

/-- `handleSystemPrompt` from `cmd/run/run.go`.  Receives the `Conversation`
BY VALUE; the new directive is written to the local copy (after
`strings.TrimPrefix` and `strings.Trim(..., "\"")`), which the caller
discards. -/
def handleSystemPrompt (prompt : String) (conversation : Conversation) :
    Conversation × List String :=
  ({ conversation with
      systemPrompt := goTrimQuotes (goTrimLeading prompt "/system-prompt ") },
   ["Updated system prompt\n"])

/-- `handleHelpPrompt` output lines from `cmd/run/run.go`. -/
def helpLines : List String :=
  ["Commands:\n",
   "  /bye, /exit, /quit - Exit the chat\n",
   "  /parameters - Show current model parameters\n",
   "  /reset, /clear - Reset chat context\n",
   "  /set <name> <value> - Set a model parameter\n",
   "  /system-prompt <prompt> - Set the system prompt\n",
   "  /help - Show this help message\n"]

/-- `handleUnrecognizedPrompt` output from `cmd/run/run.go`. -/
def handleUnrecognizedPrompt (prompt : String) : List String :=
  ["Unknown command \x27" ++ prompt ++ "\x27. See /help for supported commands.\n"]

/-- `handleCompletionChoice` from `cmd/run/run.go`: extracts the content of
whichever of `delta` / `message` is populated (delta checked first),
appends it to the message builder and writes it to the output sink.  The Go
function receives the `strings.Builder` BY VALUE; the embedding returns the
function-local builder and the (shared) output sink, and the caller keeps
only the sink. -/
def handleCompletionChoice (choice : ChatChoice) (messageBuilder : String)
    (out : List String) : String × List String :=
  match choice.delta.bind (fun d => d.content) with
  | some content => (messageBuilder ++ content, out ++ [content])
  | none =>
    match choice.message.bind (fun m => m.content) with
    | some content => (messageBuilder ++ content, out ++ [content])
    | none => (messageBuilder, out)

/-- The inner `resp.Reader.Read()` loop of `NewRunCommand`: each chunk's
choices go through `handleCompletionChoice`.  Because Go passes the
`strings.Builder` by value, the caller's builder (first component of the
accumulator) is threaded UNCHANGED past every call — only the handler's
discarded copy received the fragment — while the writes to the shared `out`
sink survive. -/
def processStreamChunks (chunks : List ChatCompletion) (messageBuilder : String)
    (out : List String) : String × List String :=
  match chunks with
  | [] => (messageBuilder, out)
  | c :: rest =>
    let after := c.choices.foldl
      (fun acc choice =>
        let r := handleCompletionChoice choice acc.1 acc.2
        (acc.1, r.2))
      (messageBuilder, out)
    processStreamChunks rest after.1 after.2

/-- Scripted behaviour of one `GetChatCompletionStream` call as the session
loop observes it: an optional call-time error, the chunks delivered before
the stream terminates, and an optional terminal read error (none = clean
EOF / `[DONE]`). -/
structure StreamScript where
  requestError : Option String
  chunks : List ChatCompletion
  terminalError : Option String
deriving DecidableEq

/-- The mutable state the session loop owns: its one `Conversation`, its one
`ModelParameters`, the output sink, and a count of exchanges started. -/
structure LoopState where
  conv : Conversation
  mp : ModelParameters
  out : List String
  exchanges : Nat
deriving DecidableEq

/-- What one loop-body iteration decides: `brk` leaves the loop normally,
`cont` goes to the next iteration, `fatal` aborts the session with an
error. -/
inductive StepResult where
  | brk : LoopState → StepResult
  | cont : LoopState → List StreamScript → StepResult
  | fatal : String → LoopState → StepResult
deriving DecidableEq

/-- One iteration of the REPL body of `NewRunCommand` (`cmd/run/run.go`,
the `for` loop), given the prompt obtained for this iteration: trim, skip
empty input, dispatch in-band commands, otherwise run one streaming
exchange.  The handlers receive the loop's `Conversation` /
`ModelParameters` by value (Go struct copies), so only their output reaches
the loop state; the streaming branch appends the user turn, consumes the
next scripted stream, and appends the caller-side builder content (just the
trailing newline, see `processStreamChunks`) as the assistant turn. -/
def processPrompt (singleShot : Bool) (modelName : String) (rawPrompt : String)
    (streams : List StreamScript) (st : LoopState) : StepResult :=
  let prompt := goTrimSpace rawPrompt
  if prompt = "" then StepResult.cont st streams
  else if strStarts prompt "/" then
    if prompt = "/bye" ∨ prompt = "/exit" ∨ prompt = "/quit" then StepResult.brk st
    else if prompt = "/parameters" then
      StepResult.cont { st with out := st.out ++ handleParametersPrompt st.conv st.mp } streams
    else if prompt = "/reset" ∨ prompt = "/clear" then
      StepResult.cont { st with out := st.out ++ (handleResetPrompt st.conv).2 } streams
    else if strStarts prompt "/set " then
      StepResult.cont { st with out := st.out ++ (handleSetPrompt prompt st.mp).2 } streams
    else if strStarts prompt "/system-prompt " then
      StepResult.cont { st with out := st.out ++ (handleSystemPrompt prompt st.conv).2 } streams
    else if prompt = "/help" then
      StepResult.cont { st with out := st.out ++ helpLines } streams
    else
      StepResult.cont { st with out := st.out ++ handleUnrecognizedPrompt prompt } streams
  else
    let conv1 := st.conv.AddMessage ChatMessageRole.user prompt
    let _req := st.mp.UpdateRequest
      { messages := conv1.GetMessages, model := modelName,
        maxTokens := none, temperature := none, topP := none, stream := false }
    let st1 := { st with conv := conv1, exchanges := st.exchanges + 1 }
    match streams with
    | [] => StepResult.fatal "transport error" st1
    | script :: rest =>
      match script.requestError with
      | some e => StepResult.fatal e st1
      | none =>
        let streamed := processStreamChunks script.chunks "" st1.out
        match script.terminalError with
        | some e => StepResult.fatal e { st1 with out := streamed.2 }
        | none =>
          let messageBuilder := streamed.1 ++ "\n"
          let st2 := { st1 with
            conv := conv1.AddMessage ChatMessageRole.assistant messageBuilder,
            out := streamed.2 ++ ["\n"] }
          if singleShot then StepResult.brk st2 else StepResult.cont st2 rest

/-- How a session run finishes: `ended` is the normal `break` out of the
loop, `errored` is a returned error (stdin exhausted, transport or stream
failure). -/
inductive Outcome where
  | ended : LoopState → Outcome
  | errored : String → LoopState → Outcome
deriving DecidableEq

/-- The loop state an outcome carries. -/
def Outcome.state : Outcome → LoopState
  | Outcome.ended st => st
  | Outcome.errored _ st => st

/-- The REPL loop of `NewRunCommand` after the initial prompt has been
consumed: every further iteration reads one line from standard input
(`reader.ReadString` fails when input is exhausted, which returns the error
from the command). -/
def runLoop (singleShot : Bool) (modelName : String) (stdin : List String)
    (streams : List StreamScript) (st : LoopState) : Outcome :=
  match stdin with
  | [] => Outcome.errored "EOF reading standard input" st
  | line :: rest =>
    match processPrompt singleShot modelName line streams st with
    | StepResult.brk st2 => Outcome.ended st2
    | StepResult.fatal e st2 => Outcome.errored e st2
    | StepResult.cont st2 streams2 => runLoop singleShot modelName rest streams2 st2

/-- The whole session loop of `NewRunCommand`: the first iteration consumes
the initial prompt when one is present (`initialPrompt` is cleared after
use, so it is consumed at most once), all later iterations read standard
input. -/
def runSession (singleShot : Bool) (modelName : String) (initialPrompt : String)
    (stdin : List String) (streams : List StreamScript) (st : LoopState) : Outcome :=
  if initialPrompt ≠ "" then
    match processPrompt singleShot modelName initialPrompt streams st with
    | StepResult.brk st2 => Outcome.ended st2
    | StepResult.fatal e st2 => Outcome.errored e st2
    | StepResult.cont st2 streams2 => runLoop singleShot modelName stdin streams2 st2
  else runLoop singleShot modelName stdin streams st

/-- The startup assembly of the one-shot prompt in `NewRunCommand`
(`cmd/run/run.go`): a command-line prompt (arguments after the model name,
joined by single spaces) and piped standard input each enable one-shot mode;
when both are present the piped text is appended after a newline. -/
def assembleInitialPrompt (args : List String) (pipedStdin : Option String) :
    String × Bool :=
  let fromArgs :=
    if args.length > 1 then (goJoin args.tail " ", true)
    else ("", false)
  match pipedStdin with
  | some promptFromPipe =>
    if promptFromPipe.length > 0 then (fromArgs.1 ++ "\n" ++ promptFromPipe, true)
    else fromArgs
  | none => fromArgs

theorem data_append (a b : String) : (a ++ b).data = a.data ++ b.data := rfl

theorem listIsPre_app (a b : List Char) : a.isPrefixOf (a ++ b) = true := by
  induction a with
  | nil => cases b <;> rfl
  | cons h t ih => simp [List.isPrefixOf, ih]

theorem strStarts_of_data (s p : String) (x : List Char) (h : s.data = p.data ++ x) :
    strStarts s p = true := by
  unfold strStarts
  rw [h]
  exact listIsPre_app p.data x

theorem listContainsSub_of_append (a m b : List Char) :
    listContainsSub (a ++ m ++ b) m = true := by
  unfold listContainsSub
  rw [List.any_eq_true]
  refine ⟨a.length, ?_, ?_⟩
  · rw [List.mem_range]
    simp [List.length_append]
    omega
  · rw [List.append_assoc, List.drop_left, List.take_left]
    simp

theorem strContains_of_data (s m : String) (a b : List Char)
    (h : s.data = a ++ m.data ++ b) : strContains s m = true := by
  unfold strContains
  rw [h]
  exact listContainsSub_of_append a m.data b

theorem strContains_append (a m b : String) : strContains (a ++ m ++ b) m = true := by
  apply strContains_of_data _ _ a.data b.data
  simp [data_append]

theorem length_pos_of_ne_empty (s : String) (h : s ≠ "") : s.length > 0 := by
  rcases Nat.eq_zero_or_pos s.length with h0 | hpos
  · exfalso
    apply h
    have hd : s.data = [] := List.length_eq_zero.mp h0
    cases s
    simp_all
  · exact hpos

/-- Claim C5 (confirmed): `GetMessages` returns the stored turns unchanged
and in order, with exactly one synthetic system message prepended if and
only if `systemPrompt` is non-empty; the view is recomputed from the current
state, so `Reset` followed by `GetMessages` yields only the directive (if
any) and zero stored turns. -/
theorem C5_get_messages_view (c : Conversation) :
    c.GetMessages =
      (if c.systemPrompt = "" then []
       else [{ content := some c.systemPrompt, role := ChatMessageRole.system }]) ++
        c.messages ∧
    c.Reset.GetMessages =
      (if c.systemPrompt = "" then []
       else [{ content := some c.systemPrompt, role := ChatMessageRole.system }]) := by
  by_cases h : c.systemPrompt = "" <;>
    simp [Conversation.GetMessages, Conversation.Reset, h]

/-- Claim C6, counterexample: with an unset `maxTokens` parameter,
`UpdateRequest` does NOT leave the request field untouched — a request that
already carried `MaxTokens = 5` comes back with the field cleared. -/
theorem C6_counterexample_overwrite :
    ((⟨none, none, none⟩ : ModelParameters).UpdateRequest
        ⟨[], "m", some 5, none, none, false⟩).maxTokens = none ∧
    (⟨[], "m", some 5, none, none, false⟩ : ChatCompletionOptions).maxTokens = some 5 :=
  ⟨rfl, rfl⟩

/-- Claim C6 (amended): `UpdateRequest` copies all three parameter fields
onto the request unconditionally — afterwards each request parameter field
equals the `ModelParameters` field (absent when the parameter is unset, so a
freshly built request still gets the transport default), and the remaining
request fields are unchanged. -/
theorem C6_update_request_assigns_all (mp : ModelParameters) (req : ChatCompletionOptions) :
    (mp.UpdateRequest req).maxTokens = mp.maxTokens ∧
    (mp.UpdateRequest req).temperature = mp.temperature ∧
    (mp.UpdateRequest req).topP = mp.topP ∧
    (mp.UpdateRequest req).messages = req.messages ∧
    (mp.UpdateRequest req).model = req.model ∧
    (mp.UpdateRequest req).stream = req.stream :=
  ⟨rfl, rfl, rfl, rfl, rfl, rfl⟩

/-- Claim C8 (confirmed): for every name outside the three recognized
parameter names and every parameter state, `FormatParameter` returns the
sentinel rather than failing — formatting is total over all name strings. -/
theorem C8_format_total (mp : ModelParameters) (name : String)
    (h1 : name ≠ "max-tokens") (h2 : name ≠ "temperature") (h3 : name ≠ "top-p") :
    mp.FormatParameter name = "<not set>" := by
  simp [ModelParameters.FormatParameter, h1, h2, h3]

theorem C8_format_total_witness :
    ("frequency-penalty" ≠ "max-tokens" ∧ "frequency-penalty" ≠ "temperature" ∧
        "frequency-penalty" ≠ "top-p") ∧
    (⟨some 42, some (mkRat 7 10), none⟩ : ModelParameters).FormatParameter "frequency-penalty" =
      "<not set>" :=
  ⟨by refine ⟨?_, ?_, ?_⟩ <;> decide,
   C8_format_total ⟨some 42, some (mkRat 7 10), none⟩ "frequency-penalty"
     (by decide) (by decide) (by decide)⟩

/-- Claim C7, counterexample: for a recognized name with unparsable text the
returned error is the raw `strconv` error, which quotes the offending VALUE
but does not name the offending FIELD — the error text for
`setByName("max-tokens", "abc")` does not contain "max-tokens". -/
theorem C7_counterexample_value_error_lacks_field_name :
    (⟨none, none, none⟩ : ModelParameters).SetParameterByName "max-tokens" "abc" =
      Except.error "strconv.Atoi: parsing \"abc\": invalid syntax" ∧
    strContains "strconv.Atoi: parsing \"abc\": invalid syntax" "max-tokens" = false := by
  constructor
  · rfl
  · decide

/-- Claim C7 (amended): an unknown parameter name fails with a validation
error that identifies the unknown parameter (its name occurs in the error
text) and no field changes; a recognized name with unparsable text fails
with the parse error (which identifies the offending value rather than the
field) and no field changes — in both cases the `/set` handler hands back
the unchanged `ModelParameters` together with the error line. -/
theorem C7_validation_errors (mp : ModelParameters) (name value : String) :
    (name ≠ "max-tokens" → name ≠ "temperature" → name ≠ "top-p" →
      mp.SetParameterByName name value = Except.error (unknownParamMsg name) ∧
      strContains (unknownParamMsg name) name = true) ∧
    (∀ e, goAtoi value = Except.error e →
      mp.SetParameterByName "max-tokens" value = Except.error e) ∧
    (∀ e, goParseFloat value = Except.error e →
      mp.SetParameterByName "temperature" value = Except.error e ∧
      mp.SetParameterByName "top-p" value = Except.error e) ∧
    (∀ p n2 v2 e, goSplit p ' ' = ["/set", n2, v2] →
      mp.SetParameterByName n2 v2 = Except.error e →
      handleSetPrompt p mp = (mp, [e ++ "\n"])) := by
  refine ⟨?_, ?_, ?_, ?_⟩
  · intro h1 h2 h3
    refine ⟨by simp [ModelParameters.SetParameterByName, h1, h2, h3], ?_⟩
    unfold unknownParamMsg
    exact strContains_append _ _ _
  · intro e he
    simp [ModelParameters.SetParameterByName, he]
  · intro e he
    constructor <;> simp [ModelParameters.SetParameterByName, he]
  · intro p n2 v2 e hsplit herr
    unfold handleSetPrompt
    rw [hsplit]
    simp only [herr]

theorem C7_validation_errors_witness :
    ((⟨none, none, none⟩ : ModelParameters).SetParameterByName "seed" "1" =
        Except.error (unknownParamMsg "seed") ∧
      strContains (unknownParamMsg "seed") "seed" = true) ∧
    (⟨none, none, none⟩ : ModelParameters).SetParameterByName "max-tokens" "zz" =
      Except.error "strconv.Atoi: parsing \"zz\": invalid syntax" ∧
    handleSetPrompt "/set seed 1" ⟨none, none, none⟩ =
      (⟨none, none, none⟩, [unknownParamMsg "seed" ++ "\n"]) :=
  ⟨(C7_validation_errors ⟨none, none, none⟩ "seed" "1").1 (by decide) (by decide) (by decide),
   (C7_validation_errors ⟨none, none, none⟩ "seed" "zz").2.1
     "strconv.Atoi: parsing \"zz\": invalid syntax" (by decide),
   (C7_validation_errors ⟨none, none, none⟩ "seed" "1").2.2.2 "/set seed 1" "seed" "1"
     (unknownParamMsg "seed") (by decide) (by decide)⟩

/-- Claim C9 (confirmed): `SetParameterByName` performs no range
validation — every string the integer parser accepts is stored in
`max-tokens` as parsed (zero and negatives included), and every string the
float parser accepts is stored in `temperature` / `top-p` as parsed (values
outside [0,1] and negatives included). -/
theorem C9_no_range_validation (mp : ModelParameters) (s : String) :
    (∀ n : Int, goAtoi s = Except.ok n →
      mp.SetParameterByName "max-tokens" s = Except.ok { mp with maxTokens := some n }) ∧
    (∀ q : Rat, goParseFloat s = Except.ok q →
      mp.SetParameterByName "temperature" s = Except.ok { mp with temperature := some q } ∧
      mp.SetParameterByName "top-p" s = Except.ok { mp with topP := some q }) := by
  constructor
  · intro n hn
    simp [ModelParameters.SetParameterByName, hn]
  · intro q hq
    constructor <;> simp [ModelParameters.SetParameterByName, hq]

theorem C9_no_range_validation_witness :
    goAtoi "-5" = Except.ok (-5) ∧
    (⟨none, none, none⟩ : ModelParameters).SetParameterByName "max-tokens" "-5" =
      Except.ok ⟨some (-5), none, none⟩ ∧
    goParseFloat "2.5" = Except.ok (mkRat 5 2) ∧
    (⟨none, none, none⟩ : ModelParameters).SetParameterByName "temperature" "2.5" =
      Except.ok ⟨none, some (mkRat 5 2), none⟩ :=
  ⟨by decide,
   (C9_no_range_validation ⟨none, none, none⟩ "-5").1 (-5) (by decide),
   by decide,
   ((C9_no_range_validation ⟨none, none, none⟩ "2.5").2 (mkRat 5 2) (by decide)).1⟩

/-- Claim C10 (confirmed): with both a command-line prompt and non-empty
piped input, the initial prompt is the argument words joined by single
spaces, a newline, then the piped text — concatenation, not override — and
one-shot mode is enabled by either source alone as well. -/
theorem C10_prompt_concatenation (args : List String) (piped : String)
    (h1 : args.length > 1) (h2 : piped ≠ "") :
    assembleInitialPrompt args (some piped) =
      (goJoin args.tail " " ++ "\n" ++ piped, true) ∧
    assembleInitialPrompt args none = (goJoin args.tail " ", true) ∧
    (∀ modelArg : String,
      assembleInitialPrompt [modelArg] (some piped) = ("\n" ++ piped, true)) := by
  have hp : piped.length > 0 := length_pos_of_ne_empty piped h2
  refine ⟨?_, ?_, ?_⟩
  · simp [assembleInitialPrompt, h1, hp]
  · simp [assembleInitialPrompt, h1]
  · intro modelArg
    simp [assembleInitialPrompt, hp]

theorem C10_prompt_concatenation_witness :
    (["model", "tell", "me"].length > 1) ∧ ("piped" ≠ "") ∧
    assembleInitialPrompt ["model", "tell", "me"] (some "piped") = ("tell me\npiped", true) ∧
    assembleInitialPrompt ["model", "tell", "me"] none = ("tell me", true) ∧
    assembleInitialPrompt ["onlymodel"] (some "piped") = ("\npiped", true) :=
  ⟨by decide, by decide,
   (C10_prompt_concatenation ["model", "tell", "me"] "piped" (by decide) (by decide)).1,
   (C10_prompt_concatenation ["model", "tell", "me"] "piped" (by decide) (by decide)).2.1,
   (C10_prompt_concatenation ["model", "tell", "me"] "piped" (by decide) (by decide)).2.2
     "onlymodel"⟩

/-- Claim C4 (confirmed): the completion-stream client always issues the
request with the stream flag forced to `true`, and for every non-success
status it returns an error and no stream handle, with the connection
released immediately; the error distinguishes authorization failure (401),
invalid request (400) and other statuses, and carries the response body. -/
theorem C4_stream_flag_and_error_handling (req : ChatCompletionOptions) (resp : HTTPResponse) :
    (GetChatCompletionStream req resp).sentRequest.stream = true ∧
    (resp.statusCode ≠ 200 →
      (GetChatCompletionStream req resp).outcome = Except.error (handleHTTPError resp) ∧
      (GetChatCompletionStream req resp).bodyClosed = true ∧
      (resp.statusCode = 401 → strStarts (handleHTTPError resp) "unauthorized" = true) ∧
      (resp.statusCode = 400 → strStarts (handleHTTPError resp) "bad request" = true) ∧
      (resp.statusCode ≠ 401 → resp.statusCode ≠ 400 →
        strStarts (handleHTTPError resp) "unexpected response from the server: " = true) ∧
      (resp.body ≠ "" → strContains (handleHTTPError resp) resp.body = true)) := by
  constructor
  · unfold GetChatCompletionStream
    split <;> rfl
  · intro h200
    refine ⟨?_, ?_, ?_, ?_, ?_, ?_⟩
    · simp [GetChatCompletionStream, h200]
    · simp [GetChatCompletionStream, h200]
    · intro h401
      by_cases hb : resp.body.length > 0
      · simp only [handleHTTPError, h401, if_true, hb, reduceIte]
        exact strStarts_of_data _ _ ("\n".data ++ resp.body.data ++ "\n".data)
          (by simp [data_append, List.append_assoc])
      · simp only [handleHTTPError, h401, if_true, hb, reduceIte]
        exact strStarts_of_data _ _ [] (by simp)
    · intro h400
      have h401 : ¬ resp.statusCode = 401 := by omega
      by_cases hb : resp.body.length > 0
      · simp only [handleHTTPError, h400, h401, if_true, if_false, hb, reduceIte]
        exact strStarts_of_data _ _ ("\n".data ++ resp.body.data ++ "\n".data)
          (by simp [data_append, List.append_assoc])
      · simp only [handleHTTPError, h400, h401, if_true, if_false, hb, reduceIte]
        exact strStarts_of_data _ _ [] (by simp)
    · intro h401 h400
      by_cases hb : resp.body.length > 0
      · simp only [handleHTTPError, h400, h401, if_false, hb, reduceIte]
        exact strStarts_of_data _ _
          (resp.status.data ++ "\n".data ++ resp.body.data ++ "\n".data)
          (by simp [data_append, List.append_assoc])
      · simp only [handleHTTPError, h400, h401, if_false, hb, reduceIte]
        exact strStarts_of_data _ _ resp.status.data (by simp [data_append])
    · intro hbody
      have hb : resp.body.length > 0 := length_pos_of_ne_empty _ hbody
      simp only [handleHTTPError, hb, reduceIte]
      apply strContains_of_data _ _
        ((if resp.statusCode = 401 then "unauthorized"
          else if resp.statusCode = 400 then "bad request"
          else "unexpected response from the server: " ++ resp.status).data ++ "\n".data)
        "\n".data
      simp [data_append, List.append_assoc]

theorem C4_witness :
    ((401 : Nat) ≠ 200) ∧
    (GetChatCompletionStream ⟨[], "m", none, none, none, false⟩
        ⟨401, "401 Unauthorized", "token expired"⟩).sentRequest.stream = true ∧
    (GetChatCompletionStream ⟨[], "m", none, none, none, false⟩
        ⟨401, "401 Unauthorized", "token expired"⟩).outcome =
      Except.error "unauthorized\ntoken expired\n" ∧
    (GetChatCompletionStream ⟨[], "m", none, none, none, false⟩
        ⟨401, "401 Unauthorized", "token expired"⟩).bodyClosed = true ∧
    strStarts "unauthorized\ntoken expired\n" "unauthorized" = true ∧
    strContains "unauthorized\ntoken expired\n" "token expired" = true := by
  have h := C4_stream_flag_and_error_handling ⟨[], "m", none, none, none, false⟩
    ⟨401, "401 Unauthorized", "token expired"⟩
  have h2 := h.2 (by decide)
  refine ⟨by decide, h.1, h2.1, h2.2.1, ?_, ?_⟩
  · exact h2.2.2.1 rfl
  · exact h2.2.2.2.2.2 (by decide)

/-- Claim C1 (code_bug): the in-band commands are NOT durable on the session
state.  The handlers receive the `Conversation` / `ModelParameters` structs
by value, so `/reset` leaves the stored turn in place, `/system-prompt`
leaves the directive unchanged and a valid `/set` leaves the parameter
unset — even though each command prints its success message. -/
theorem C1_commands_not_durable :
    runSession false "m" "" ["/reset", "/bye"] []
        ⟨⟨[⟨some "hi", ChatMessageRole.user⟩], "orig"⟩, ⟨some 1, none, none⟩, [], 0⟩ =
      Outcome.ended
        ⟨⟨[⟨some "hi", ChatMessageRole.user⟩], "orig"⟩, ⟨some 1, none, none⟩,
          ["Reset chat history\n"], 0⟩ ∧
    runSession false "m" "" ["/system-prompt newsys", "/bye"] []
        ⟨⟨[], ""⟩, ⟨none, none, none⟩, [], 0⟩ =
      Outcome.ended ⟨⟨[], ""⟩, ⟨none, none, none⟩, ["Updated system prompt\n"], 0⟩ ∧
    runSession false "m" "" ["/set max-tokens 5", "/bye"] []
        ⟨⟨[], ""⟩, ⟨none, none, none⟩, [], 0⟩ =
      Outcome.ended ⟨⟨[], ""⟩, ⟨none, none, none⟩, ["Set max-tokens to 5\n"], 0⟩ := by
  refine ⟨?_, ?_, ?_⟩ <;> decide

/-- Claim C2 (code_bug): for the scripted stream carrying "Hel" then "lo",
the output sink does receive "Hel" then "lo" in order, but the appended
assistant turn is "\n", not "Hello" — `handleCompletionChoice` receives the
`strings.Builder` by value, so every accumulated fragment is discarded and
only the newline the loop itself appends afterwards survives. -/
theorem C2_assistant_turn_lost :
    runSession true "m" "hi" []
        [⟨none, [⟨[⟨some ⟨some "Hel"⟩, none⟩]⟩, ⟨[⟨some ⟨some "lo"⟩, none⟩]⟩], none⟩]
        ⟨⟨[], ""⟩, ⟨none, none, none⟩, [], 0⟩ =
      Outcome.ended
        ⟨⟨[⟨some "hi", ChatMessageRole.user⟩, ⟨some "\n", ChatMessageRole.assistant⟩], ""⟩,
          ⟨none, none, none⟩, ["Hel", "lo", "\n"], 1⟩ ∧
    (some "\n" : Option String) ≠ some "Hello" := by
  refine ⟨?_, ?_⟩ <;> decide

/-- Claim C3, counterexample: a session started with the non-empty initial
prompt "/bye" ends immediately with ZERO exchanges, so a one-shot session
does not always perform exactly one exchange. -/
theorem C3_counterexample_bye :
    runSession true "m" "/bye" [] [] ⟨⟨[], ""⟩, ⟨none, none, none⟩, [], 0⟩ =
      Outcome.ended ⟨⟨[], ""⟩, ⟨none, none, none⟩, [], 0⟩ ∧
    (runSession true "m" "/bye" [] []
        ⟨⟨[], ""⟩, ⟨none, none, none⟩, [], 0⟩).state.exchanges ≠ 1 := by
  refine ⟨?_, ?_⟩ <;> decide

/-- One loop-body iteration in one-shot mode: a `cont` outcome never changes
the exchange count (commands and empty input do not start an exchange, and a
completed exchange breaks the loop instead of continuing), while terminal
outcomes start at most one new exchange. -/
theorem processPrompt_true_exchanges (modelName rawPrompt : String)
    (streams : List StreamScript) (st : LoopState) :
    match processPrompt true modelName rawPrompt streams st with
    | StepResult.cont st2 _ => st2.exchanges = st.exchanges
    | StepResult.brk st2 => st2.exchanges ≤ st.exchanges + 1
    | StepResult.fatal _ st2 => st2.exchanges ≤ st.exchanges + 1 := by
  by_cases c0 : goTrimSpace rawPrompt = ""
  · simp [processPrompt, c0]
  · by_cases c1 : strStarts (goTrimSpace rawPrompt) "/" = true
    · by_cases c2 : goTrimSpace rawPrompt = "/bye" ∨ goTrimSpace rawPrompt = "/exit" ∨
          goTrimSpace rawPrompt = "/quit"
      · simp [processPrompt, c0, c1, c2]
      · by_cases c3 : goTrimSpace rawPrompt = "/parameters"
        · simp [processPrompt, c0, c1, c2, c3,
            (show strStarts "/parameters" "/" = true by decide)]
        · by_cases c4 : goTrimSpace rawPrompt = "/reset" ∨ goTrimSpace rawPrompt = "/clear"
          · simp [processPrompt, c0, c1, c2, c3, c4]
          · by_cases c5 : strStarts (goTrimSpace rawPrompt) "/set " = true
            · simp [processPrompt, c0, c1, c2, c3, c4, c5]
            · by_cases c6 : strStarts (goTrimSpace rawPrompt) "/system-prompt " = true
              · simp [processPrompt, c0, c1, c2, c3, c4, c5, c6]
              · by_cases c7 : goTrimSpace rawPrompt = "/help"
                · simp [processPrompt, c0, c1, c2, c3, c4, c5, c6, c7,
                    (show strStarts "/help" "/" = true by decide),
                    (show strStarts "/help" "/set " = false by decide),
                    (show strStarts "/help" "/system-prompt " = false by decide)]
                · simp [processPrompt, c0, c1, c2, c3, c4, c5, c6, c7]
    · cases streams with
      | nil => simp [processPrompt, c0, c1]
      | cons script rest =>
        cases hre : script.requestError with
        | some e => simp [processPrompt, c0, c1, hre]
        | none =>
          cases hte : script.terminalError with
          | some e => simp [processPrompt, c0, c1, hre, hte]
          | none => simp [processPrompt, c0, c1, hre, hte]

/-- In one-shot mode the remaining loop never starts more than one further
exchange, whatever input and scripted streams follow. -/
theorem runLoop_true_exchanges (modelName : String) (stdin : List String) :
    ∀ (streams : List StreamScript) (st : LoopState),
      ((runLoop true modelName stdin streams st).state).exchanges ≤ st.exchanges + 1 := by
  induction stdin with
  | nil =>
    intro streams st
    simp [runLoop, Outcome.state]
  | cons line rest ih =>
    intro streams st
    have h := processPrompt_true_exchanges modelName line streams st
    unfold runLoop
    cases hr : processPrompt true modelName line streams st with
    | brk st2 =>
      rw [hr] at h
      simpa [Outcome.state] using h
    | fatal e st2 =>
      rw [hr] at h
      simpa [Outcome.state] using h
    | cont st2 streams2 =>
      rw [hr] at h
      simp only at h
      have := ih streams2 st2
      show ((runLoop true modelName rest streams2 st2).state).exchanges ≤ st.exchanges + 1
      omega

/-- Claim C3 (amended): in one-shot mode the session performs AT MOST one
exchange — a second exchange is never started, whatever further input is
available; a command or error can end the session with zero exchanges, so
"exactly one" does not hold (see the counterexample). -/
theorem C3_at_most_one_exchange (modelName initialPrompt : String) (stdin : List String)
    (streams : List StreamScript) (st : LoopState) (h : st.exchanges = 0) :
    ((runSession true modelName initialPrompt stdin streams st).state).exchanges ≤ 1 := by
  unfold runSession
  by_cases hip : initialPrompt ≠ ""
  · rw [if_pos hip]
    have hp := processPrompt_true_exchanges modelName initialPrompt streams st
    cases hr : processPrompt true modelName initialPrompt streams st with
    | brk st2 =>
      rw [hr] at hp
      simp only at hp
      show (Outcome.ended st2).state.exchanges ≤ 1
      simp only [Outcome.state]
      omega
    | fatal e st2 =>
      rw [hr] at hp
      simp only at hp
      show (Outcome.errored e st2).state.exchanges ≤ 1
      simp only [Outcome.state]
      omega
    | cont st2 streams2 =>
      rw [hr] at hp
      simp only at hp
      have := runLoop_true_exchanges modelName stdin streams2 st2
      show ((runLoop true modelName stdin streams2 st2).state).exchanges ≤ 1
      omega
  · rw [if_neg hip]
    have := runLoop_true_exchanges modelName stdin streams st
    omega

theorem C3_at_most_one_exchange_witness :
    ((⟨⟨[], ""⟩, ⟨none, none, none⟩, [], 0⟩ : LoopState).exchanges = 0) ∧
    ((runSession true "m" "hi" []
        [⟨none, [⟨[⟨some ⟨some "Hel"⟩, none⟩]⟩], none⟩]
        ⟨⟨[], ""⟩, ⟨none, none, none⟩, [], 0⟩).state).exchanges ≤ 1 :=
  ⟨rfl,
   C3_at_most_one_exchange "m" "hi" [] [⟨none, [⟨[⟨some ⟨some "Hel"⟩, none⟩]⟩], none⟩]
     ⟨⟨[], ""⟩, ⟨none, none, none⟩, [], 0⟩ rfl⟩
